import Mathlib

set_option maxRecDepth 100000

/-
Verification of the recipe-generator repository (frontend.py, backend.py).

The embedding models the three pieces of logic the claims are about:
* the prompt builders (frontend.py generate_recipe_text lines 30-64,
  backend.py recipe_stream lines 33-47),
* the response splitter (frontend.py lines 80-103, backend.py lines 54-68),
* the text formatter (frontend.py format_recipe_text lines 112-233 and
  _flush_instructions lines 235-243),
* the backend event stream (backend.py generate_response lines 49-86).

Python strings are modelled as Lean String values; the Python string
primitives used by the code (strip, lower, startswith, the membership
test, split on a newline, join) are given explicit executable
definitions over the character list of the string.
-/

namespace Recipe

/-- Python str.strip(): remove leading and trailing whitespace characters. -/
def pyStrip (s : String) : String :=
  ⟨((s.data.dropWhile Char.isWhitespace).reverse.dropWhile Char.isWhitespace).reverse⟩

/-- Python str.lower() (ASCII case folding; the headings are ASCII). -/
def pyLower (s : String) : String := ⟨s.data.map Char.toLower⟩

/-- Python s.startswith(pre). -/
def pyStartsWith (s pre : String) : Bool := pre.data.isPrefixOf s.data

/-- Python membership test sub in s: contiguous substring containment. -/
def pyIn (sub s : String) : Bool := decide (sub.data <:+: s.data)

/-- Helper for pySplitLines, accumulating the current line reversed. -/
def splitLinesAux : List Char → List Char → List String
  | [], acc => [⟨acc.reverse⟩]
  | c :: cs, acc =>
    if c = '\n' then ⟨acc.reverse⟩ :: splitLinesAux cs []
    else splitLinesAux cs (c :: acc)

/-- Python full_text.split on a newline separator. -/
def pySplitLines (s : String) : List String := splitLinesAux s.data []

/-- Python str.join with a newline separator. -/
def joinLines : List String → String
  | [] => ""
  | [l] => l
  | l :: ls => l ++ "\n" ++ joinLines ls

/-! ## Prompt builders -/

/-- Frontend targeted prompt, text before the recipe name (frontend.py 31-32). -/
def feT1 : String := "\nYou are an expert chef and professional recipe writer. Create a detailed, engaging, and well-structured recipe for \""

/-- Frontend targeted prompt, text after the recipe name (frontend.py 32-39). -/
def feT2 : String := "\".\nInclude:\n- A creative, catchy title.\n- A clear list of ingredients with precise measurements.\n- Step-by-step cooking instructions.\n- Useful cooking tips and presentation suggestions.\nEnsure the recipe is professionally formatted and easy to follow.\n"

/-- Frontend targeted prompt (frontend.py lines 31-39). -/
def fe_targetedPrompt (name : String) : String := feT1 ++ name ++ feT2

def feB0 : String := "\nYou are an expert chef and acclaimed recipe writer with a flair for creativity.\nUsing the details below, generate a comprehensive, well-formatted recipe.\n\nDetails:\n• Ingredients: "

def feB1 : String := "\n• Meal Type: "

def feB2 : String := "\n• Cuisine Preference: "

def feB3 : String := "\n• Cooking Time: "

def feB4 : String := "\n• Complexity: "

def feB5 : String := "\n\nYour response should have two sections:\n\n**Main Recipe**:\n- A catchy title.\n- A detailed list of ingredients with measurements.\n- Step-by-step cooking instructions.\n- Helpful cooking tips.\n\n**Other Recipe Suggestions**:\nAfter the main recipe, output exactly three alternative recipe names (only names) on separate lines. Each suggestion should be prefixed with a dash (\"- \"). Label this section clearly with \"Other Recipe Suggestions:\".\n\nEnsure the entire response is clear, engaging, and professionally formatted.\n"

/-- Frontend broad prompt (frontend.py lines 41-64). -/
def fe_broadPrompt (ingredients mealType cuisine cookingTime complexity : String) : String :=
  feB0 ++ ingredients ++ feB1 ++ mealType ++ feB2 ++ cuisine ++ feB3 ++ cookingTime ++ feB4 ++ complexity ++ feB5

/-- Frontend prompt selection (frontend.py line 30): Python truthiness, so an
absent name or an empty-string name selects the broad prompt. -/
def fe_buildPrompt (ingredients mealType cuisine cookingTime complexity : String) :
    Option String → String
  | some name =>
    if name = "" then fe_broadPrompt ingredients mealType cuisine cookingTime complexity
    else fe_targetedPrompt name
  | none => fe_broadPrompt ingredients mealType cuisine cookingTime complexity

/-- Backend targeted prompt, text before the recipe name (backend.py line 34). -/
def beT1 : String := "Generate a detailed recipe for "

/-- Backend targeted prompt, text after the recipe name (backend.py line 34). -/
def beT2 : String := ". Include ingredients, instructions, and tips."

/-- Backend targeted prompt (backend.py line 34). -/
def be_targetedPrompt (name : String) : String := beT1 ++ name ++ beT2

def beB0 : String := "\n        Generate a recipe using the following details:\n        Ingredients: "

def beB1 : String := "\n        Meal Type: "

def beB2 : String := "\n        Cuisine Preference: "

def beB3 : String := "\n        Cooking Time: "

def beB4 : String := "\n        Complexity: "

def beB5 : String := ".\n        Provide a detailed recipe. \n        Then, also suggest 3 other similar recipes by name only. \n        Label them as \"Other Recipes:\" in the output.\n        "

/-- Backend broad prompt (backend.py lines 37-47), indentation preserved. -/
def be_broadPrompt (ingredients mealType cuisine cookingTime complexity : String) : String :=
  beB0 ++ ingredients ++ beB1 ++ mealType ++ beB2 ++ cuisine ++ beB3 ++ cookingTime ++ beB4 ++ complexity ++ beB5

/-- Backend prompt selection (backend.py line 33), Python truthiness. -/
def be_buildPrompt (ingredients mealType cuisine cookingTime complexity : String) :
    Option String → String
  | some name =>
    if name = "" then be_broadPrompt ingredients mealType cuisine cookingTime complexity
    else be_targetedPrompt name
  | none => be_broadPrompt ingredients mealType cuisine cookingTime complexity

/-- The field labels the broad prompts attach to the four preference fields. -/
def fieldLabels : List String := ["Meal Type", "Cuisine Preference", "Cooking Time", "Complexity"]

/-! ## Frontend response splitter (frontend.py lines 80-103) -/

/-- The suggestions header the frontend splitter looks for (frontend.py line 88). -/
def suggestionsHeader : String := "Other Recipe Suggestions:"

structure SplitState where
  main : List String
  sugg : List String
  isSug : Bool
deriving DecidableEq

/-- The net effect of the splitter loop's suggestion branch on one line
(frontend.py lines 93-98): strip, and remove one leading dash plus
surrounding whitespace when present. -/
def stripSuggestion (l : String) : String :=
  if pyStartsWith (pyStrip l) "-" then pyStrip ⟨(pyStrip l).data.drop 1⟩ else pyStrip l

/-- One iteration of the splitter loop (frontend.py lines 86-100). -/
def splitStep (st : SplitState) (line : String) : SplitState :=
  if pyIn suggestionsHeader line then { st with isSug := true }
  else if st.isSug then
    if pyStartsWith (pyStrip line) "-" then
      { st with sugg := st.sugg ++ [pyStrip ⟨(pyStrip line).data.drop 1⟩] }
    else if pyStrip line ≠ "" then { st with sugg := st.sugg ++ [pyStrip line] }
    else st
  else { st with main := st.main ++ [pyStrip line] }

/-- The splitter on an already-split list of lines (frontend.py lines 81-103). -/
def splitResponseLines (lines : List String) : String × List String :=
  let st := lines.foldl splitStep ⟨[], [], false⟩
  (joinLines (st.main.filter (fun l => l != "")), st.sugg)

/-- The splitter on the raw reply text (frontend.py lines 81-103). -/
def splitResponse (fullText : String) : String × List String :=
  splitResponseLines (pySplitLines fullText)

/-- frontend.py generate_recipe_text, with the single external call modelled
by the api argument mapping the built prompt to the outcome of the one
synchronous call: the raised exception text, or the full reply text.  The
function consumes exactly one call outcome, so no retry is possible. -/
def generate_recipe_text (ingredients mealType cuisine cookingTime complexity : String)
    (recipeName : Option String) (api : String → Except String String) :
    String × List String :=
  match api (fe_buildPrompt ingredients mealType cuisine cookingTime complexity recipeName) with
  | Except.error e => ("ERROR: " ++ e, [])
  | Except.ok fullText => splitResponse fullText

/-! ## Formatter (frontend.py lines 112-243) -/

def instructionSynonyms : List String := ["instructions", "directions", "method"]

/-- headings_map of frontend.py lines 127-133, in insertion order. -/
def headingsMap : List (String × String) :=
  [("title", "##"), ("main recipe", "##"), ("ingredients", "###"),
   ("tips", "###"), ("other recipe suggestions", "##")]

/-- Python re.match of a dash or an asterisk followed by a whitespace
character, applied to the stripped line (frontend.py line 218). -/
def bulletMatch (s : String) : Bool :=
  match s.data with
  | c1 :: c2 :: _ => (c1 == '-' || c1 == '*') && c2.isWhitespace
  | _ => false

/-- Numbered rendering of the buffered instruction lines, counting from n
(the enumerate loop of _flush_instructions, frontend.py lines 241-242). -/
def flushNumbered : Nat → List String → List String
  | _, [] => []
  | n, s :: r => (Nat.repr n ++ ". " ++ s) :: flushNumbered (n + 1) r

/-- frontend.py _flush_instructions (lines 235-243): a blank line followed by
the buffered lines numbered from 1. -/
def flush_instructions (buf : List String) : List String := "" :: flushNumbered 1 buf

structure FormatState where
  out : List String
  buf : List String
  cur : Option String
deriving DecidableEq

/-- The call-site pattern for flushing: extend the output with the numbered
buffer only when the buffer is non-empty (frontend.py lines 179-180 etc.,
line 228). -/
def appendFlushed (out buf : List String) : List String :=
  if buf = [] then out else out ++ flush_instructions buf

/-- Heading detection of frontend.py lines 153-168: first a case-insensitive
prefix scan of headings_map in order, then of the instruction synonyms,
returning the markdown heading level. -/
def findHeading (ll : String) : Option String :=
  match headingsMap.find? (fun kv => pyStartsWith ll kv.1) with
  | some kv => some kv.2
  | none =>
    if instructionSynonyms.any (fun w => pyStartsWith ll w) then some "###" else none

/-- The heading case of the formatter loop body (frontend.py lines 171-206):
emit the markdown heading, then the containment chain chooses the new
section, flushes any buffered instructions, and only the instructions
branch clears the buffer. -/
def headingStep (st : FormatState) (ls ll lvl : String) : FormatState :=
  if pyIn "ingredients" ll then
    ⟨appendFlushed (st.out ++ [lvl ++ " **" ++ ls ++ "**"]) st.buf, st.buf, some "ingredients"⟩
  else if pyIn "tips" ll then
    ⟨appendFlushed (st.out ++ [lvl ++ " **" ++ ls ++ "**"]) st.buf, st.buf, some "tips"⟩
  else if pyIn "main recipe" ll then
    ⟨appendFlushed (st.out ++ [lvl ++ " **" ++ ls ++ "**"]) st.buf, st.buf, some "main_recipe"⟩
  else if pyIn "other recipe suggestions" ll then
    ⟨appendFlushed (st.out ++ [lvl ++ " **" ++ ls ++ "**"]) st.buf, st.buf, some "suggestions"⟩
  else if instructionSynonyms.any (fun w => pyIn w ll) then
    ⟨appendFlushed (st.out ++ [lvl ++ " **" ++ ls ++ "**"]) st.buf, [], some "instructions"⟩
  else
    ⟨appendFlushed (st.out ++ [lvl ++ " **" ++ ls ++ "**"]) st.buf, st.buf, some "other"⟩

/-- The non-heading case of the formatter loop body (frontend.py lines
208-225): buffer instruction lines, bullet ingredient and tip lines
(keeping an existing bullet marker), pass through everything else. -/
def bodyStep (st : FormatState) (ls : String) : FormatState :=
  if st.cur = some "instructions" then ⟨st.out, st.buf ++ [ls], st.cur⟩
  else if st.cur = some "ingredients" ∨ st.cur = some "tips" then
    if bulletMatch ls then ⟨st.out ++ [ls], st.buf, st.cur⟩
    else ⟨st.out ++ ["- " ++ ls], st.buf, st.cur⟩
  else ⟨st.out ++ [ls], st.buf, st.cur⟩

/-- One iteration of the formatter loop (frontend.py lines 144-225). -/
def stepFormat (st : FormatState) (line : String) : FormatState :=
  if pyStrip line = "" then { st with out := st.out ++ [""] }
  else
    match findHeading (pyLower (pyStrip line)) with
    | some lvl => headingStep st (pyStrip line) (pyLower (pyStrip line)) lvl
    | none => bodyStep st (pyStrip line)

/-- The formatter loop over all lines plus the trailing flush
(frontend.py lines 144-230), producing the formatted_lines list. -/
def formatRecipeLines (lines : List String) : List String :=
  let st := lines.foldl stepFormat ⟨[], [], none⟩
  appendFlushed st.out st.buf

/-- frontend.py format_recipe_text (lines 112-233). -/
def format_recipe_text (t : String) : String :=
  joinLines (formatRecipeLines (pySplitLines t))

/-- Whether a line is recognized as a section heading: case-insensitive prefix
match of the stripped line against the fixed vocabulary. -/
def matchesHeading (line : String) : Bool :=
  headingsMap.any (fun kv => pyStartsWith (pyLower (pyStrip line)) kv.1)
    || instructionSynonyms.any (fun w => pyStartsWith (pyLower (pyStrip line)) w)

/-- The section a recognized heading line switches to (the containment chain
of frontend.py lines 176-206), a function of the lowered stripped line only. -/
def sectionOfHeading (ll : String) : Option String :=
  if pyIn "ingredients" ll then some "ingredients"
  else if pyIn "tips" ll then some "tips"
  else if pyIn "main recipe" ll then some "main_recipe"
  else if pyIn "other recipe suggestions" ll then some "suggestions"
  else if instructionSynonyms.any (fun w => pyIn w ll) then some "instructions"
  else some "other"

/-- How a stripped input line may appear in the formatter's output: verbatim,
with a bullet marker prefixed, with a step number prefixed, or wrapped as a
markdown heading (heading level prefixed and bold markers around it). -/
def Decorates (ls o : String) : Prop :=
  o = ls ∨ o = "- " ++ ls ∨ (∃ k : Nat, o = Nat.repr k ++ ". " ++ ls)
    ∨ (∃ lvl, (lvl = "##" ∨ lvl = "###") ∧ o = lvl ++ " **" ++ ls ++ "**")

/-- A stripped line is tracked by a formatter state when it is already
decorated in the emitted output or still sits in the instruction buffer. -/
def Tracked (st : FormatState) (ls : String) : Prop :=
  (∃ o ∈ st.out, Decorates ls o) ∨ ls ∈ st.buf

/-! ## Backend stream (backend.py lines 49-86) -/

structure BeSplitState where
  main : List String
  sugg : List String
  isSug : Bool
deriving DecidableEq

/-- One iteration of the backend parsing loop (backend.py lines 59-68). -/
def beSplitStep (st : BeSplitState) (line : String) : BeSplitState :=
  if pyIn "Other Recipes:" line || pyIn "Similar Recipes:" line then { st with isSug := true }
  else if st.isSug && !(pyStrip line == "") then { st with sugg := st.sugg ++ [pyStrip line] }
  else if !st.isSug then { st with main := st.main ++ [pyStrip line] }
  else st

/-- json.dumps escaping of a single character, for the strings at hand. -/
def jsonEscapeChar (c : Char) : String :=
  if c = '\"' then "\\\"" else if c = '\\' then "\\\\"
  else if c = '\n' then "\\n" else if c = '\t' then "\\t" else if c = '\r' then "\\r"
  else String.singleton c

/-- json.dumps rendering of a string value. -/
def jsonStr (s : String) : String := "\"" ++ String.join (s.data.map jsonEscapeChar) ++ "\""

def joinComma : List String → String
  | [] => ""
  | [x] => x
  | x :: xs => x ++ ", " ++ joinComma xs

/-- json.dumps of the suggestions payload (backend.py line 77). -/
def jsonSuggestions (sugg : List String) : String :=
  "\x7b\"suggestions\": [" ++ joinComma (sugg.map jsonStr) ++ "]\x7d"

/-- A server-sent event line (backend.py lines 73, 77, 80, 84). -/
def dataEvent (payload : String) : String := "data: " ++ payload ++ "\n\n"

/-- The closing event (backend.py line 80). -/
def closeEvent : String := dataEvent "\x7b\"action\": \"close\"\x7d"

/-- The error event (backend.py line 84). -/
def errorEvent (e : String) : String :=
  dataEvent ("\x7b\"error\": " ++ jsonStr ("Failed to generate recipe. Reason: " ++ e) ++ "\x7d")

/-- Python truthiness of the optional recipeName query parameter. -/
def optTruthy : Option String → Bool
  | none => false
  | some s => !(s == "")

/-- backend.py generate_response (lines 49-86): the sequence of yielded
events, with the generation call modelled by its outcome (raised exception
text or reply text). -/
def generate_response (recipeName : Option String) (api : Except String String) :
    List String :=
  match api with
  | Except.error e => [errorEvent e]
  | Except.ok text =>
    let st := (pySplitLines text).foldl beSplitStep ⟨[], [], false⟩
    (st.main.filter (fun c => c != "")).map dataEvent
      ++ (if !(optTruthy recipeName) && !st.sugg.isEmpty then
            [dataEvent (jsonSuggestions st.sugg)]
          else [])
      ++ [closeEvent]

/-! ## List infrastructure -/

theorem prefix_append_cases {α : Type} {l A B : List α} (h : l <+: A ++ B) :
    l <+: A ∨ ∃ t, t ≠ [] ∧ l = A ++ t ∧ t <+: B := by
  obtain ⟨r, hr⟩ := h
  rcases List.append_eq_append_iff.mp hr with ⟨a, ha1, _⟩ | ⟨c, hc1, hc2⟩
  · exact Or.inl ⟨a, ha1.symm⟩
  · rcases eq_or_ne c [] with rfl | hne
    · exact Or.inl ⟨[], by simp [hc1]⟩
    · exact Or.inr ⟨c, hne, hc1, ⟨r, hc2.symm⟩⟩

theorem infix_append_cases {α : Type} {l A B : List α} (h : l <:+: A ++ B) :
    l <:+: A ∨ l <:+: B ∨ ∃ u v, u ≠ [] ∧ v ≠ [] ∧ l = u ++ v ∧ u <:+ A ∧ v <+: B := by
  obtain ⟨s, t, hst⟩ := h
  rcases List.append_eq_append_iff.mp hst with ⟨x, hx1, _⟩ | ⟨y, hy1, hy2⟩
  · exact Or.inl ⟨s, x, hx1.symm⟩
  · rcases List.append_eq_append_iff.mp hy1 with ⟨p, hp1, hp2⟩ | ⟨q, hq1, hq2⟩
    · rcases eq_or_ne p [] with rfl | hp
      · refine Or.inr (Or.inl (List.IsPrefix.isInfix ⟨t, ?_⟩))
        rw [hp2, hy2]
        simp
      · rcases eq_or_ne y [] with rfl | hy
        · refine Or.inl (List.IsSuffix.isInfix ⟨s, ?_⟩)
          rw [hp2, hp1]
          simp
        · exact Or.inr (Or.inr ⟨p, y, hp, hy, hp2, ⟨s, hp1.symm⟩, ⟨t, hy2.symm⟩⟩)
    · refine Or.inr (Or.inl ⟨q, t, ?_⟩)
      rw [hy2, hq2]

theorem straddle_last {A u l : List Char} {c : Char} (hA : A.getLast? = some c)
    (hc : c ∉ l) (hu : u ≠ []) (hsuf : u <:+ A) (hpre : u <+: l) : False := by
  obtain ⟨w, hw⟩ := hsuf
  rcases hud : u.getLast? with _ | d
  · exact hu (List.getLast?_eq_none_iff.mp hud)
  · have hdc : d = c := by
      rw [← hw, List.getLast?_append, hud] at hA
      simpa using hA
    exact hc (hpre.subset (hdc ▸ List.mem_of_mem_getLast? (Option.mem_def.mpr hud)))

theorem straddle_head_left {A u l : List Char} {c : Char} (hl : l.head? = some c)
    (hc : c ∉ A) (hu : u ≠ []) (hsuf : u <:+ A) (hpre : u <+: l) : False := by
  obtain ⟨r, hr⟩ := hpre
  cases u with
  | nil => exact hu rfl
  | cons a u2 =>
    have ha : a = c := by
      rw [← hr] at hl
      simpa using hl
    subst ha
    exact hc (hsuf.subset (List.mem_cons_self a u2))

theorem straddle_head_right {B v l : List Char} {c : Char} (hB : B.head? = some c)
    (hc : c ∉ l) (hv : v ≠ []) (hpre : v <+: B) (hsuf : v <:+ l) : False := by
  obtain ⟨r, hr⟩ := hpre
  cases v with
  | nil => exact hv rfl
  | cons a v2 =>
    have ha : a = c := by
      rw [← hr] at hB
      simpa using hB
    subst ha
    exact hc (hsuf.subset (List.mem_cons_self a v2))

theorem not_infix_sandwich {lab A B n : List Char}
    (hA : ¬ lab <:+: A) (hB : ¬ lab <:+: B) (hn : ¬ lab <:+: n)
    (hAn : ∀ u, u ≠ [] → u <:+ A → u <+: lab → False)
    (hnB : ∀ v, v ≠ [] → v <+: B → v <:+ lab → False) :
    ¬ lab <:+: A ++ (n ++ B) := by
  intro h
  rcases infix_append_cases h with h1 | h2 | ⟨u, v, hu, _, hl, hsuf, _⟩
  · exact hA h1
  · rcases infix_append_cases h2 with g1 | g2 | ⟨u, v, _, hv, gl, _, gpre⟩
    · exact hn g1
    · exact hB g2
    · exact hnB v hv gpre ⟨u, gl.symm⟩
  · exact hAn u hu hsuf ⟨v, hl.symm⟩

/-! ## Splitter step lemmas -/

theorem splitStep_main {st : SplitState} {l : String}
    (hin : pyIn suggestionsHeader l = false) (hs : st.isSug = false) :
    splitStep st l = ⟨st.main ++ [pyStrip l], st.sugg, false⟩ := by
  simp [splitStep, hin, hs]

theorem splitStep_header {st : SplitState} {l : String}
    (h : pyIn suggestionsHeader l = true) :
    splitStep st l = ⟨st.main, st.sugg, true⟩ := by
  simp [splitStep, h]

theorem splitStep_sugg {st : SplitState} {l : String}
    (hin : pyIn suggestionsHeader l = false) (hbl : pyStrip l ≠ "") (hs : st.isSug = true) :
    splitStep st l = ⟨st.main, st.sugg ++ [stripSuggestion l], true⟩ := by
  cases hd : pyStartsWith (pyStrip l) "-" with
  | false => simp [splitStep, stripSuggestion, hin, hs, hd, hbl]
  | true => simp [splitStep, stripSuggestion, hin, hs, hd]

theorem foldl_splitStep_main : ∀ (lines : List String) (m s : List String),
    (∀ l ∈ lines, pyIn suggestionsHeader l = false) →
    lines.foldl splitStep ⟨m, s, false⟩ = ⟨m ++ lines.map pyStrip, s, false⟩ := by
  intro lines
  induction lines with
  | nil => intro m s _; simp
  | cons l ls ih =>
    intro m s h
    have h1 := h l (List.mem_cons_self l ls)
    have h2 : ∀ x ∈ ls, pyIn suggestionsHeader x = false :=
      fun x hx => h x (List.mem_cons_of_mem _ hx)
    simp only [List.foldl_cons]
    rw [splitStep_main h1 rfl, ih (m ++ [pyStrip l]) s h2]
    simp

/-! ## Infix helpers for the prompt theorems -/

theorem infix_extend_left {x L l : List Char} (h : l <:+: L) : l <:+: x ++ L :=
  h.trans (List.IsSuffix.isInfix (List.suffix_append x L))

theorem fe_broadPrompt_data (i m c t x : String) :
    (fe_buildPrompt i m c t x none).data
      = feB0.data ++ (i.data ++ (feB1.data ++ (m.data ++ (feB2.data ++ (c.data ++
          (feB3.data ++ (t.data ++ (feB4.data ++ (x.data ++ feB5.data))))))))) := by
  simp [fe_buildPrompt, fe_broadPrompt, List.append_assoc]

theorem be_broadPrompt_data (i m c t x : String) :
    (be_buildPrompt i m c t x none).data
      = beB0.data ++ (i.data ++ (beB1.data ++ (m.data ++ (beB2.data ++ (c.data ++
          (beB3.data ++ (t.data ++ (beB4.data ++ (x.data ++ beB5.data))))))))) := by
  simp [be_buildPrompt, be_broadPrompt, List.append_assoc]

/-- Claim C1: for a raw reply whose lines are a main body, then a line
containing the suggestions header, then exactly three non-blank suggestion
lines, the splitter returns exactly those three lines as suggestions, in
order, with a leading dash and surrounding whitespace stripped (a line
without a dash is accepted as-is), and a main body that is exactly the
join of the stripped non-blank main-body lines, so it contains neither the
header line nor any suggestion line. -/
theorem C1_splitter_roundtrip (mainLines : List String) (header s1 s2 s3 : String)
    (hmain : ∀ l ∈ mainLines, pyIn suggestionsHeader l = false)
    (hhead : pyIn suggestionsHeader header = true)
    (h1 : pyIn suggestionsHeader s1 = false) (h1b : pyStrip s1 ≠ "")
    (h2 : pyIn suggestionsHeader s2 = false) (h2b : pyStrip s2 ≠ "")
    (h3 : pyIn suggestionsHeader s3 = false) (h3b : pyStrip s3 ≠ "") :
    splitResponseLines (mainLines ++ header :: s1 :: s2 :: [s3]) =
      (joinLines ((mainLines.map pyStrip).filter (fun l => l != "")),
        [stripSuggestion s1, stripSuggestion s2, stripSuggestion s3]) := by
  simp only [splitResponseLines]
  rw [List.foldl_append, foldl_splitStep_main mainLines [] [] hmain]
  simp only [List.foldl_cons, List.foldl_nil]
  rw [splitStep_header hhead, splitStep_sugg h1 h1b rfl, splitStep_sugg h2 h2b rfl,
    splitStep_sugg h3 h3b rfl]
  simp

/-- Witness for C1 at the concrete reply of the specification scenario. -/
theorem C1_splitter_roundtrip_witness :
    ((∀ l ∈ ["Title: Cake", "Mix well"], pyIn suggestionsHeader l = false)
      ∧ pyIn suggestionsHeader "Other Recipe Suggestions:" = true
      ∧ pyStrip "- Pancakes" ≠ "" ∧ pyStrip "- Waffles" ≠ "" ∧ pyStrip "Crepes" ≠ "")
    ∧ splitResponseLines
        (["Title: Cake", "Mix well"] ++ "Other Recipe Suggestions:" :: "- Pancakes" :: "- Waffles" :: ["Crepes"]) =
      (joinLines (((["Title: Cake", "Mix well"] : List String).map pyStrip).filter (fun l => l != "")),
        [stripSuggestion "- Pancakes", stripSuggestion "- Waffles", stripSuggestion "Crepes"]) :=
  ⟨⟨by decide, by decide, by decide, by decide, by decide⟩,
    C1_splitter_roundtrip ["Title: Cake", "Mix well"] "Other Recipe Suggestions:"
      "- Pancakes" "- Waffles" "Crepes" (by decide) (by decide) (by decide) (by decide)
      (by decide) (by decide) (by decide) (by decide)⟩

/-- Claim C2: for every recipe request without a recipe name, both broad
prompts contain the five field values verbatim as substrings, and each
contains its instruction asking for exactly three alternative recipes
(frontend: three alternative recipe names; backend: three other similar
recipes by name only). -/
theorem C2_broad_prompt_contains_fields (i m c t x : String) :
    (i.data <:+: (fe_buildPrompt i m c t x none).data
      ∧ m.data <:+: (fe_buildPrompt i m c t x none).data
      ∧ c.data <:+: (fe_buildPrompt i m c t x none).data
      ∧ t.data <:+: (fe_buildPrompt i m c t x none).data
      ∧ x.data <:+: (fe_buildPrompt i m c t x none).data
      ∧ "output exactly three alternative recipe names".data
          <:+: (fe_buildPrompt i m c t x none).data)
    ∧ (i.data <:+: (be_buildPrompt i m c t x none).data
      ∧ m.data <:+: (be_buildPrompt i m c t x none).data
      ∧ c.data <:+: (be_buildPrompt i m c t x none).data
      ∧ t.data <:+: (be_buildPrompt i m c t x none).data
      ∧ x.data <:+: (be_buildPrompt i m c t x none).data
      ∧ "suggest 3 other similar recipes by name only".data
          <:+: (be_buildPrompt i m c t x none).data) := by
  have hfe := fe_broadPrompt_data i m c t x
  have hbe := be_broadPrompt_data i m c t x
  refine ⟨⟨?_, ?_, ?_, ?_, ?_, ?_⟩, ?_, ?_, ?_, ?_, ?_, ?_⟩
  · rw [hfe]
    exact infix_extend_left (List.IsPrefix.isInfix (List.prefix_append _ _))
  · rw [hfe]
    exact infix_extend_left (infix_extend_left (infix_extend_left
      (List.IsPrefix.isInfix (List.prefix_append _ _))))
  · rw [hfe]
    exact infix_extend_left (infix_extend_left (infix_extend_left (infix_extend_left
      (infix_extend_left (List.IsPrefix.isInfix (List.prefix_append _ _))))))
  · rw [hfe]
    exact infix_extend_left (infix_extend_left (infix_extend_left (infix_extend_left
      (infix_extend_left (infix_extend_left (infix_extend_left
      (List.IsPrefix.isInfix (List.prefix_append _ _))))))))
  · rw [hfe]
    exact infix_extend_left (infix_extend_left (infix_extend_left (infix_extend_left
      (infix_extend_left (infix_extend_left (infix_extend_left (infix_extend_left
      (infix_extend_left (List.IsPrefix.isInfix (List.prefix_append _ _))))))))))
  · rw [hfe]
    exact infix_extend_left (infix_extend_left (infix_extend_left (infix_extend_left
      (infix_extend_left (infix_extend_left (infix_extend_left (infix_extend_left
      (infix_extend_left (infix_extend_left (by decide))))))))))
  · rw [hbe]
    exact infix_extend_left (List.IsPrefix.isInfix (List.prefix_append _ _))
  · rw [hbe]
    exact infix_extend_left (infix_extend_left (infix_extend_left
      (List.IsPrefix.isInfix (List.prefix_append _ _))))
  · rw [hbe]
    exact infix_extend_left (infix_extend_left (infix_extend_left (infix_extend_left
      (infix_extend_left (List.IsPrefix.isInfix (List.prefix_append _ _))))))
  · rw [hbe]
    exact infix_extend_left (infix_extend_left (infix_extend_left (infix_extend_left
      (infix_extend_left (infix_extend_left (infix_extend_left
      (List.IsPrefix.isInfix (List.prefix_append _ _))))))))
  · rw [hbe]
    exact infix_extend_left (infix_extend_left (infix_extend_left (infix_extend_left
      (infix_extend_left (infix_extend_left (infix_extend_left (infix_extend_left
      (infix_extend_left (List.IsPrefix.isInfix (List.prefix_append _ _))))))))))
  · rw [hbe]
    exact infix_extend_left (infix_extend_left (infix_extend_left (infix_extend_left
      (infix_extend_left (infix_extend_left (infix_extend_left (infix_extend_left
      (infix_extend_left (infix_extend_left (by decide))))))))))

theorem fe_targeted_no_label {lab : List Char} {n : String}
    (hq : Char.ofNat 34 ∉ lab)
    (hA : ¬ lab <:+: feT1.data) (hB : ¬ lab <:+: feT2.data) (hn : ¬ lab <:+: n.data) :
    ¬ lab <:+: feT1.data ++ (n.data ++ feT2.data) :=
  not_infix_sandwich hA hB hn
    (fun u hu hsuf hpre => straddle_last (by decide) hq hu hsuf hpre)
    (fun v hv hpre hsuf => straddle_head_right (by decide) hq hv hpre hsuf)

theorem be_targeted_no_label (c : Char) {lab : List Char} {n : String}
    (hhead : lab.head? = some c) (hcA : c ∉ beT1.data) (hdot : '.' ∉ lab)
    (hA : ¬ lab <:+: beT1.data) (hB : ¬ lab <:+: beT2.data) (hn : ¬ lab <:+: n.data) :
    ¬ lab <:+: beT1.data ++ (n.data ++ beT2.data) :=
  not_infix_sandwich hA hB hn
    (fun u hu hsuf hpre => straddle_head_left hhead hcA hu hsuf hpre)
    (fun v hv hpre hsuf => straddle_head_right (by decide) hdot hv hpre hsuf)

theorem fe_targetedPrompt_data {n : String} (hn : n ≠ "") (i m c t x : String) :
    (fe_buildPrompt i m c t x (some n)).data = feT1.data ++ (n.data ++ feT2.data) := by
  simp only [fe_buildPrompt]
  rw [if_neg hn]
  simp [fe_targetedPrompt, List.append_assoc]

theorem be_targetedPrompt_data {n : String} (hn : n ≠ "") (i m c t x : String) :
    (be_buildPrompt i m c t x (some n)).data = beT1.data ++ (n.data ++ beT2.data) := by
  simp only [be_buildPrompt]
  rw [if_neg hn]
  simp [be_targetedPrompt, List.append_assoc]

/-- Claim C3 (amended): for every recipe request with a non-empty recipe
name, both targeted prompts depend only on the recipe name (changing the
other five fields does not change the prompt), and, provided a field label
does not occur inside the recipe name itself, the prompt does not contain
that label as a substring. -/
theorem C3_targeted_prompt_ignores_fields (i1 m1 c1 t1 x1 i2 m2 c2 t2 x2 n : String)
    (hn : n ≠ "") :
    (fe_buildPrompt i1 m1 c1 t1 x1 (some n) = fe_buildPrompt i2 m2 c2 t2 x2 (some n)
      ∧ be_buildPrompt i1 m1 c1 t1 x1 (some n) = be_buildPrompt i2 m2 c2 t2 x2 (some n))
    ∧ ∀ lab ∈ fieldLabels, ¬ lab.data <:+: n.data →
        (¬ lab.data <:+: (fe_buildPrompt i1 m1 c1 t1 x1 (some n)).data
          ∧ ¬ lab.data <:+: (be_buildPrompt i1 m1 c1 t1 x1 (some n)).data) := by
  constructor
  · constructor
    · simp [fe_buildPrompt, hn]
    · simp [be_buildPrompt, hn]
  · intro lab hlab hninf
    rw [fe_targetedPrompt_data hn, be_targetedPrompt_data hn]
    simp only [fieldLabels, List.mem_cons, List.not_mem_nil, or_false] at hlab
    rcases hlab with rfl | rfl | rfl | rfl
    · exact ⟨fe_targeted_no_label (by decide) (by decide) (by decide) hninf,
        be_targeted_no_label 'M' (by decide) (by decide) (by decide) (by decide) (by decide) hninf⟩
    · exact ⟨fe_targeted_no_label (by decide) (by decide) (by decide) hninf,
        be_targeted_no_label 'C' (by decide) (by decide) (by decide) (by decide) (by decide) hninf⟩
    · exact ⟨fe_targeted_no_label (by decide) (by decide) (by decide) hninf,
        be_targeted_no_label 'C' (by decide) (by decide) (by decide) (by decide) (by decide) hninf⟩
    · exact ⟨fe_targeted_no_label (by decide) (by decide) (by decide) hninf,
        be_targeted_no_label 'C' (by decide) (by decide) (by decide) (by decide) (by decide) hninf⟩

/-- Witness for C3 at a concrete request. -/
theorem C3_targeted_prompt_ignores_fields_witness :
    (("Pancakes" : String) ≠ "" ∧ ("Meal Type" : String) ∈ fieldLabels
      ∧ ¬ "Meal Type".data <:+: "Pancakes".data)
    ∧ fe_buildPrompt "egg" "Lunch" "Indian" "30" "Easy" (some "Pancakes")
        = fe_buildPrompt "tofu" "Dinner" "Thai" "60" "Hard" (some "Pancakes")
    ∧ ¬ "Meal Type".data
        <:+: (fe_buildPrompt "egg" "Lunch" "Indian" "30" "Easy" (some "Pancakes")).data :=
  ⟨⟨by decide, by decide, by decide⟩,
    ((C3_targeted_prompt_ignores_fields "egg" "Lunch" "Indian" "30" "Easy"
      "tofu" "Dinner" "Thai" "60" "Hard" "Pancakes" (by decide)).1).1,
    (((C3_targeted_prompt_ignores_fields "egg" "Lunch" "Indian" "30" "Easy"
      "tofu" "Dinner" "Thai" "60" "Hard" "Pancakes" (by decide)).2)
      "Meal Type" (by decide) (by decide)).1⟩

/-- Counterexample to C3 as stated: a recipe name that itself contains a
field label makes the targeted prompt contain that label. -/
theorem C3_counterexample_label_via_name :
    "Meal Type".data <:+: (fe_buildPrompt "i" "m" "c" "t" "x" (some "Meal Type")).data := by
  rw [fe_targetedPrompt_data (by decide) "i" "m" "c" "t" "x"]
  exact infix_extend_left (List.IsPrefix.isInfix (List.prefix_append _ _))

/-! ## Formatter step lemmas -/

theorem findHeading_eq_none {l : String} (h : matchesHeading l = false) :
    findHeading (pyLower (pyStrip l)) = none := by
  unfold matchesHeading at h
  rcases Bool.or_eq_false_iff.mp h with ⟨h1, h2⟩
  unfold findHeading
  rw [List.find?_eq_none.mpr (fun kv hkv => List.any_eq_false.mp h1 kv hkv)]
  simp [h2]

theorem findHeading_isSome {l : String} (h : matchesHeading l = true) :
    ∃ lvl, findHeading (pyLower (pyStrip l)) = some lvl := by
  unfold findHeading
  cases hf : headingsMap.find? (fun kv => pyStartsWith (pyLower (pyStrip l)) kv.1) with
  | some kv => exact ⟨kv.2, rfl⟩
  | none =>
    have h1 : headingsMap.any (fun kv => pyStartsWith (pyLower (pyStrip l)) kv.1) = false :=
      List.any_eq_false.mpr (fun x hx => List.find?_eq_none.mp hf x hx)
    unfold matchesHeading at h
    rw [h1] at h
    simp only [Bool.false_or] at h
    exact ⟨"###", by rw [if_pos h]⟩

theorem findHeading_levels {ll lvl : String} (h : findHeading ll = some lvl) :
    lvl = "##" ∨ lvl = "###" := by
  unfold findHeading at h
  cases hf : headingsMap.find? (fun kv => pyStartsWith ll kv.1) with
  | some kv =>
    rw [hf] at h
    have hall : ∀ p ∈ headingsMap, p.2 = "##" ∨ p.2 = "###" := by decide
    have hkv := hall kv (List.mem_of_find?_eq_some hf)
    rw [← Option.some.inj h]
    exact hkv
  | none =>
    rw [hf] at h
    by_cases hs : instructionSynonyms.any (fun w => pyStartsWith ll w) = true
    · rw [if_pos hs] at h
      exact Or.inr (Option.some.inj h).symm
    · rw [if_neg hs] at h
      exact absurd h (by simp)

theorem stepFormat_blank {st : FormatState} {l : String} (h : pyStrip l = "") :
    stepFormat st l = ⟨st.out ++ [""], st.buf, st.cur⟩ := by
  simp [stepFormat, h]

theorem stepFormat_body {st : FormatState} {l : String}
    (hb : pyStrip l ≠ "") (hh : matchesHeading l = false) :
    stepFormat st l = bodyStep st (pyStrip l) := by
  simp [stepFormat, hb, findHeading_eq_none hh]

theorem stepFormat_heading {st : FormatState} {l lvl : String}
    (hb : pyStrip l ≠ "") (hf : findHeading (pyLower (pyStrip l)) = some lvl) :
    stepFormat st l = headingStep st (pyStrip l) (pyLower (pyStrip l)) lvl := by
  simp [stepFormat, hb, hf]

theorem bodyStep_cur (st : FormatState) (ls : String) : (bodyStep st ls).cur = st.cur := by
  unfold bodyStep
  split_ifs <;> rfl

theorem headingStep_cur (st : FormatState) (ls ll lvl : String) :
    (headingStep st ls ll lvl).cur = sectionOfHeading ll := by
  unfold headingStep sectionOfHeading
  split_ifs <;> rfl

theorem stepFormat_instr {st : FormatState} {l : String}
    (hb : pyStrip l ≠ "") (hh : matchesHeading l = false)
    (hc : st.cur = some "instructions") :
    stepFormat st l = ⟨st.out, st.buf ++ [pyStrip l], st.cur⟩ := by
  rw [stepFormat_body hb hh]
  unfold bodyStep
  rw [if_pos hc]

theorem foldl_stepFormat_instr : ∀ (steps : List String) (st : FormatState),
    st.cur = some "instructions" →
    (∀ s ∈ steps, pyStrip s ≠ "" ∧ matchesHeading s = false) →
    steps.foldl stepFormat st = ⟨st.out, st.buf ++ steps.map pyStrip, st.cur⟩ := by
  intro steps
  induction steps with
  | nil => intro st _ _; simp
  | cons s rest ih =>
    intro st hc h
    obtain ⟨hb, hh⟩ := h s (List.mem_cons_self s rest)
    have h2 : ∀ x ∈ rest, pyStrip x ≠ "" ∧ matchesHeading x = false :=
      fun x hx => h x (List.mem_cons_of_mem _ hx)
    simp only [List.foldl_cons]
    rw [stepFormat_instr hb hh hc, ih ⟨st.out, st.buf ++ [pyStrip s], st.cur⟩ hc h2]
    simp

/-- Claim C4 (amended): every buffered instruction line is re-numbered
sequentially 1..n in original order regardless of the model's own
numbering; a line that already starts with a digit and a period is NOT
passed through unchanged but gets a fresh step number prefixed like any
other line. -/
theorem C4_instructions_renumbered (steps : List String) (hne : steps ≠ [])
    (hs : ∀ s ∈ steps, pyStrip s ≠ "" ∧ matchesHeading s = false) :
    formatRecipeLines ("Instructions:" :: steps) =
      "### **Instructions:**" :: "" :: flushNumbered 1 (steps.map pyStrip) := by
  have h0 : stepFormat ⟨[], [], none⟩ "Instructions:" =
      ⟨["### **Instructions:**"], [], some "instructions"⟩ := by decide
  simp only [formatRecipeLines, List.foldl_cons]
  rw [h0, foldl_stepFormat_instr steps ⟨["### **Instructions:**"], [], some "instructions"⟩ rfl hs]
  have hnem : steps.map pyStrip ≠ [] := fun hx => hne (List.map_eq_nil_iff.mp hx)
  simp [appendFlushed, hnem, flush_instructions]

/-- Witness for C4 on three unnumbered instruction lines. -/
theorem C4_instructions_renumbered_witness :
    ((["Mix", "Bake", "Serve"] : List String) ≠ []
      ∧ ∀ s ∈ (["Mix", "Bake", "Serve"] : List String),
          pyStrip s ≠ "" ∧ matchesHeading s = false)
    ∧ formatRecipeLines ("Instructions:" :: ["Mix", "Bake", "Serve"]) =
        "### **Instructions:**" :: ""
          :: flushNumbered 1 ((["Mix", "Bake", "Serve"] : List String).map pyStrip) :=
  ⟨⟨by decide, by decide⟩,
    C4_instructions_renumbered ["Mix", "Bake", "Serve"] (by decide) (by decide)⟩

/-- Counterexample to C4 as stated: a line already starting with a digit and
a period is re-numbered (the fresh number is prefixed), not passed through
unchanged. -/
theorem C4_counterexample_no_passthrough :
    formatRecipeLines ["Instructions:", "2. Mix"]
        = ["### **Instructions:**", "", "1. 2. Mix"]
      ∧ "2. Mix" ∉ formatRecipeLines ["Instructions:", "2. Mix"] := by decide

theorem bulletMatch_ne_empty {s : String} (h : bulletMatch s = true) : s ≠ "" := by
  intro h0
  rw [h0] at h
  exact absurd h (by decide)

/-- Claim C5 (amended): an ingredients-section or tips-section line whose
stripped form starts with a dash or an asterisk followed by a whitespace
character is emitted unchanged, so the bulleting pass never doubles such
markers; a bare dash with no following whitespace does get a fresh bullet
prefixed. -/
theorem C5_bullet_line_unchanged (st : FormatState) (line : String)
    (hcur : st.cur = some "ingredients" ∨ st.cur = some "tips")
    (hh : matchesHeading line = false)
    (hb : bulletMatch (pyStrip line) = true) :
    stepFormat st line = ⟨st.out ++ [pyStrip line], st.buf, st.cur⟩ := by
  rw [stepFormat_body (bulletMatch_ne_empty hb) hh]
  unfold bodyStep
  have hni : ¬ st.cur = some "instructions" := by
    rcases hcur with h | h <;> rw [h] <;> simp
  rw [if_neg hni, if_pos hcur, if_pos hb]

/-- Witness for C5 on a well-formed bullet line. -/
theorem C5_bullet_line_unchanged_witness :
    ((⟨[], [], some "ingredients"⟩ : FormatState).cur = some "ingredients"
      ∧ matchesHeading "- egg" = false ∧ bulletMatch (pyStrip "- egg") = true)
    ∧ stepFormat ⟨[], [], some "ingredients"⟩ "- egg"
        = ⟨[] ++ [pyStrip "- egg"], [], some "ingredients"⟩ :=
  ⟨⟨rfl, by decide, by decide⟩,
    C5_bullet_line_unchanged ⟨[], [], some "ingredients"⟩ "- egg"
      (Or.inl rfl) (by decide) (by decide)⟩

/-- Counterexample to C5 as stated: an ingredients line starting with a bare
dash (no following whitespace) gets another bullet prefixed, producing a
doubled marker. -/
theorem C5_counterexample_bare_dash :
    pyStartsWith (pyStrip "-egg") "-" = true
      ∧ formatRecipeLines ["Ingredients:", "-egg"] = ["### **Ingredients:**", "- -egg"]
      ∧ "-egg" ∉ formatRecipeLines ["Ingredients:", "-egg"] := by decide

/-- Claim C6 (amended): the formatter's section state is reassigned exactly
on lines whose stripped, lowered form has a vocabulary word as prefix, and
the new section is a function of the line alone; the two splitters instead
switch their suggestions flag exactly when the raw line CONTAINS their
exact header string case-sensitively (not a case-insensitive prefix
match). -/
theorem C6_section_switch_characterization (st : FormatState) (line : String)
    (fst : SplitState) (bst : BeSplitState) :
    (matchesHeading line = false → (stepFormat st line).cur = st.cur)
    ∧ (matchesHeading line = true →
        (stepFormat st line).cur = sectionOfHeading (pyLower (pyStrip line)))
    ∧ (splitStep fst line).isSug = (fst.isSug || pyIn suggestionsHeader line)
    ∧ (beSplitStep bst line).isSug
        = (bst.isSug || (pyIn "Other Recipes:" line || pyIn "Similar Recipes:" line)) := by
  refine ⟨?_, ?_, ?_, ?_⟩
  · intro hh
    by_cases hls : pyStrip line = ""
    · rw [stepFormat_blank hls]
    · rw [stepFormat_body hls hh]
      exact bodyStep_cur st (pyStrip line)
  · intro hh
    have hls : pyStrip line ≠ "" := by
      intro h0
      have hfalse : matchesHeading line = false := by
        unfold matchesHeading
        rw [h0]
        decide
      rw [hfalse] at hh
      cases hh
    obtain ⟨lvl, hf⟩ := findHeading_isSome hh
    rw [stepFormat_heading hls hf]
    exact headingStep_cur st (pyStrip line) (pyLower (pyStrip line)) lvl
  · unfold splitStep
    cases hin : pyIn suggestionsHeader line with
    | true => simp [hin]
    | false =>
      simp only [hin, Bool.or_false, Bool.false_eq_true, if_false]
      split_ifs <;> rfl
  · unfold beSplitStep
    cases hor : (pyIn "Other Recipes:" line || pyIn "Similar Recipes:" line) with
    | true => simp [hor]
    | false =>
      simp only [hor, Bool.or_false, Bool.false_eq_true, if_false]
      split_ifs <;> rfl

/-- Witness for C6 on a concrete heading line. -/
theorem C6_section_switch_characterization_witness :
    matchesHeading "Tips:" = true
    ∧ (stepFormat ⟨[], [], none⟩ "Tips:").cur = sectionOfHeading (pyLower (pyStrip "Tips:")) :=
  ⟨by decide,
    (C6_section_switch_characterization ⟨[], [], none⟩ "Tips:" ⟨[], [], false⟩
      ⟨[], [], false⟩).2.1 (by decide)⟩

/-- Counterexample to C6 as stated: the splitter's header detection is a
case-sensitive containment test, so a case-insensitive prefix match of the
header does not switch the state, while a mid-line exact occurrence does. -/
theorem C6_counterexample_splitter_detection :
    pyStartsWith (pyLower (pyStrip "OTHER RECIPE SUGGESTIONS:")) "other recipe suggestions" = true
      ∧ (splitStep ⟨[], [], false⟩ "OTHER RECIPE SUGGESTIONS:").isSug = false
      ∧ pyStartsWith (pyLower (pyStrip "note: Other Recipe Suggestions: below"))
          "other recipe suggestions" = false
      ∧ (splitStep ⟨[], [], false⟩ "note: Other Recipe Suggestions: below").isSug = true := by
  decide

/-- Claim C10: a blank input line only appends an empty output line; the
section state and the buffered instruction lines are unchanged, so step
numbering continues across it. -/
theorem C10_blank_line_neutral (st : FormatState) (line : String)
    (h : pyStrip line = "") :
    stepFormat st line = ⟨st.out ++ [""], st.buf, st.cur⟩ :=
  stepFormat_blank h

/-- Witness for C10 on a whitespace-only line in an instructions section. -/
theorem C10_blank_line_neutral_witness :
    pyStrip "   " = ""
    ∧ stepFormat ⟨["## **Title**"], ["Mix well"], some "instructions"⟩ "   "
        = ⟨["## **Title**"] ++ [""], ["Mix well"], some "instructions"⟩ :=
  ⟨by decide,
    C10_blank_line_neutral ⟨["## **Title**"], ["Mix well"], some "instructions"⟩ "   "
      (by decide)⟩

/-! ## No-line-dropped machinery -/

theorem mem_flushNumbered {ls : String} : ∀ (buf : List String) (n : Nat), ls ∈ buf →
    ∃ k : Nat, (Nat.repr k ++ ". " ++ ls) ∈ flushNumbered n buf := by
  intro buf
  induction buf with
  | nil => intro n h; cases h
  | cons s rest ih =>
    intro n h
    rcases List.mem_cons.mp h with rfl | hr
    · exact ⟨n, List.mem_cons_self _ _⟩
    · obtain ⟨k, hk⟩ := ih (n + 1) hr
      exact ⟨k, List.mem_cons_of_mem _ hk⟩

theorem mem_appendFlushed_left {out buf : List String} {o : String} (h : o ∈ out) :
    o ∈ appendFlushed out buf := by
  unfold appendFlushed
  split_ifs
  · exact h
  · exact List.mem_append_left _ h

theorem tracked_appendFlushed {st : FormatState} {ls : String} (h : Tracked st ls) :
    ∃ o ∈ appendFlushed st.out st.buf, Decorates ls o := by
  rcases h with ⟨o, ho, hd⟩ | hbuf
  · exact ⟨o, mem_appendFlushed_left ho, hd⟩
  · have hne : st.buf ≠ [] := List.ne_nil_of_mem hbuf
    obtain ⟨k, hk⟩ := mem_flushNumbered st.buf 1 hbuf
    refine ⟨Nat.repr k ++ ". " ++ ls, ?_, Or.inr (Or.inr (Or.inl ⟨k, rfl⟩))⟩
    unfold appendFlushed
    rw [if_neg hne]
    exact List.mem_append_right _ (List.mem_cons_of_mem _ hk)

theorem tracked_headingStep {st : FormatState} {ls2 ll lvl ls : String}
    (h : Tracked st ls) : Tracked (headingStep st ls2 ll lvl) ls := by
  have hout : ∃ o ∈ appendFlushed (st.out ++ [lvl ++ " **" ++ ls2 ++ "**"]) st.buf,
      Decorates ls o := by
    rcases h with ⟨o, ho, hd⟩ | hbuf
    · exact ⟨o, mem_appendFlushed_left (List.mem_append_left _ ho), hd⟩
    · have hne : st.buf ≠ [] := List.ne_nil_of_mem hbuf
      obtain ⟨k, hk⟩ := mem_flushNumbered st.buf 1 hbuf
      refine ⟨Nat.repr k ++ ". " ++ ls, ?_, Or.inr (Or.inr (Or.inl ⟨k, rfl⟩))⟩
      unfold appendFlushed
      rw [if_neg hne]
      exact List.mem_append_right _ (List.mem_cons_of_mem _ hk)
  unfold headingStep
  split_ifs <;> exact Or.inl hout

theorem tracked_bodyStep {st : FormatState} {ls2 ls : String}
    (h : Tracked st ls) : Tracked (bodyStep st ls2) ls := by
  unfold bodyStep
  rcases h with ⟨o, ho, hd⟩ | hbuf
  · split_ifs <;>
      exact Or.inl ⟨o, by first | exact ho | exact List.mem_append_left _ ho, hd⟩
  · split_ifs <;>
      first
        | exact Or.inr (List.mem_append_left _ hbuf)
        | exact Or.inr hbuf

theorem tracked_stepFormat {st : FormatState} {l ls : String}
    (h : Tracked st ls) : Tracked (stepFormat st l) ls := by
  unfold stepFormat
  by_cases hls : pyStrip l = ""
  · rw [if_pos hls]
    rcases h with ⟨o, ho, hd⟩ | hbuf
    · exact Or.inl ⟨o, List.mem_append_left _ ho, hd⟩
    · exact Or.inr hbuf
  · rw [if_neg hls]
    cases hfh : findHeading (pyLower (pyStrip l)) with
    | some lvl => exact tracked_headingStep h
    | none => exact tracked_bodyStep h

theorem tracked_new_line (st : FormatState) (l : String) (hb : pyStrip l ≠ "") :
    Tracked (stepFormat st l) (pyStrip l) := by
  unfold stepFormat
  rw [if_neg hb]
  cases hfh : findHeading (pyLower (pyStrip l)) with
  | some lvl =>
    have hlvl := findHeading_levels hfh
    unfold headingStep
    have hmem : (lvl ++ " **" ++ pyStrip l ++ "**")
        ∈ appendFlushed (st.out ++ [lvl ++ " **" ++ pyStrip l ++ "**"]) st.buf :=
      mem_appendFlushed_left (List.mem_append_right _ (List.mem_cons_self _ _))
    have hdec : Decorates (pyStrip l) (lvl ++ " **" ++ pyStrip l ++ "**") :=
      Or.inr (Or.inr (Or.inr ⟨lvl, hlvl, rfl⟩))
    split_ifs <;> exact Or.inl ⟨_, hmem, hdec⟩
  | none =>
    unfold bodyStep
    split_ifs
    · exact Or.inr (List.mem_append_right _ (List.mem_cons_self _ _))
    · exact Or.inl ⟨pyStrip l, List.mem_append_right _ (List.mem_cons_self _ _), Or.inl rfl⟩
    · exact Or.inl ⟨"- " ++ pyStrip l, List.mem_append_right _ (List.mem_cons_self _ _),
        Or.inr (Or.inl rfl)⟩
    · exact Or.inl ⟨pyStrip l, List.mem_append_right _ (List.mem_cons_self _ _), Or.inl rfl⟩

theorem tracked_foldl : ∀ (lines : List String) (st : FormatState) (ls : String),
    Tracked st ls → Tracked (lines.foldl stepFormat st) ls := by
  intro lines
  induction lines with
  | nil => intro st ls h; exact h
  | cons l rest ih => intro st ls h; exact ih (stepFormat st l) ls (tracked_stepFormat h)

theorem tracked_foldl_mem : ∀ (lines : List String) (st : FormatState) (line : String),
    line ∈ lines → pyStrip line ≠ "" →
    Tracked (lines.foldl stepFormat st) (pyStrip line) := by
  intro lines
  induction lines with
  | nil => intro st line h _; cases h
  | cons l rest ih =>
    intro st line h hb
    rcases List.mem_cons.mp h with rfl | hr
    · exact tracked_foldl rest _ _ (tracked_new_line st line hb)
    · exact ih (stepFormat st l) line hr hb

/-- Claim C7: the formatter is a total function (the embedding needs no
error case because the source has no failing branch), and every non-blank
input line appears in the output: verbatim, or with a bullet marker or a
step number prefixed, or wrapped as a markdown heading; no line is ever
dropped. -/
theorem C7_no_line_dropped (lines : List String) (line : String)
    (hmem : line ∈ lines) (hb : pyStrip line ≠ "") :
    ∃ o ∈ formatRecipeLines lines, Decorates (pyStrip line) o :=
  tracked_appendFlushed (tracked_foldl_mem lines ⟨[], [], none⟩ line hmem hb)

/-- Witness for C7 on a concrete two-line input. -/
theorem C7_no_line_dropped_witness :
    (("egg" : String) ∈ (["Ingredients:", "egg"] : List String) ∧ pyStrip "egg" ≠ "")
    ∧ ∃ o ∈ formatRecipeLines ["Ingredients:", "egg"], Decorates (pyStrip "egg") o :=
  ⟨⟨by decide, by decide⟩,
    C7_no_line_dropped ["Ingredients:", "egg"] "egg" (by decide) (by decide)⟩

/-- Claim C8: when the single external call raises, generate_recipe_text
returns the error-tagged main body (the tag plus the exception text) and an
empty suggestions list; the embedding consumes exactly one call outcome, so
the call is not retried. -/
theorem C8_error_returns_tagged (i m c t x : String) (recipeName : Option String)
    (e : String) :
    generate_recipe_text i m c t x recipeName (fun _ => Except.error e)
      = ("ERROR: " ++ e, []) := rfl

/-- Claim C9 (amended): a successfully generated stream is the parsed
non-blank main-recipe lines in order as data events, then (in broad mode
with non-empty extracted suggestions) one JSON suggestions event, and its
final event is the close-action event; when the generation call raises, the
whole stream is a single event carrying the error field, and no close event
follows it. -/
theorem C9_stream_structure (recipeName : Option String) (e text : String) :
    generate_response recipeName (Except.error e) = [errorEvent e]
    ∧ (generate_response recipeName (Except.ok text)).getLast? = some closeEvent
    ∧ generate_response recipeName (Except.ok text)
        = ((((pySplitLines text).foldl beSplitStep ⟨[], [], false⟩).main.filter
              (fun c => c != "")).map dataEvent)
          ++ (if !(optTruthy recipeName)
                && !((pySplitLines text).foldl beSplitStep ⟨[], [], false⟩).sugg.isEmpty then
                [dataEvent (jsonSuggestions ((pySplitLines text).foldl beSplitStep
                  ⟨[], [], false⟩).sugg)]
              else [])
          ++ [closeEvent] := by
  refine ⟨rfl, ?_, rfl⟩
  show (generate_response recipeName (Except.ok text)).getLast? = some closeEvent
  unfold generate_response
  simp [List.getLast?_append]

/-- Counterexample to C9 as stated: on a raised generation error the
stream's only (and final) event is the error event, not the close-action
event. -/
theorem C9_counterexample_error_stream_unclosed :
    generate_response none (Except.error "boom") = [errorEvent "boom"]
    ∧ (generate_response none (Except.error "boom")).getLast? ≠ some closeEvent :=
  ⟨rfl, by decide⟩

end Recipe
